import Mathlib

/-!
Verification of the geometry constraint engine of the Osdag bridge-input
frontend (`src/frontend/src/utils/geometry.ts` and the form seed in
`App.tsx`).  The source is embedded twice: once with JavaScript numbers
idealised as exact rationals (`ℚ`), used for the structural and
inequality properties that are insensitive to rounding noise, and once
with every arithmetic operation rounded to IEEE-754 binary64 (the `…FP`
definitions further below), used for the claims that pin exact committed
values at concrete inputs.  `Math.round` is round-half-up
(`round x = ⌊x + 1/2⌋`, which matches JavaScript `Math.round` on all
reals including negatives, applied per the ES specification to the exact
value of its double argument), `Math.floor` is `Int.floor`, and
`Number.prototype.toFixed` rounds ties away from zero (the ES
specification picks the larger magnitude on a tie and negates
afterwards).  Error and warning maps only ever hold the keys
`girder_count`, `girder_spacing` and `deck_overhang`, so they are
modelled as a record of three `Option String` fields; the imperative
overwriting of keys in the source is translated into explicit
`let`-chains preserving evaluation order.
-/

namespace OsdagGeometry

/-- `const MIN_OVERHANG = 0.5`. -/
def MIN_OVERHANG : ℚ := 1/2

/-- `const MIN_SPACING = 0.5`. -/
def MIN_SPACING : ℚ := 1/2

/-- `const MIN_GIRDER_COUNT = 2`. -/
def MIN_GIRDER_COUNT : ℚ := 2

/-- `clamp(value, min, max) = Math.max(min, Math.min(value, max))`. -/
def clamp (value lo hi : ℚ) : ℚ := max lo (min value hi)

/-- `Math.round(value * 10) / 10`. -/
def roundToOneDecimal (value : ℚ) : ℚ := ((round (value * 10) : ℤ) : ℚ) / 10

/-- `Math.round(value * 100) / 100`. -/
def roundToTwoDecimals (value : ℚ) : ℚ := ((round (value * 100) : ℤ) : ℚ) / 100

/-- `computeOverallWidth(carriagewayWidth)`:
`Math.max(roundToTwoDecimals(carriagewayWidth + 5), MIN_SPACING*2 + MIN_OVERHANG*2)`. -/
def computeOverallWidth (carriagewayWidth : ℚ) : ℚ :=
  max (roundToTwoDecimals (carriagewayWidth + 5)) (MIN_SPACING * 2 + MIN_OVERHANG * 2)

/-- `computeMaxGirders(overallWidth)`:
`Math.max(MIN_GIRDER_COUNT, Math.floor((overallWidth - 2*MIN_OVERHANG) / MIN_SPACING))`. -/
def computeMaxGirders (overallWidth : ℚ) : ℚ :=
  max MIN_GIRDER_COUNT ((⌊(overallWidth - 2 * MIN_OVERHANG) / MIN_SPACING⌋ : ℤ) : ℚ)

/-- `computeMaxOverhang(overallWidth, girderCount)`:
`Math.max(MIN_OVERHANG, (overallWidth - girderCount*MIN_SPACING) / 2)`. -/
def computeMaxOverhang (overallWidth girderCount : ℚ) : ℚ :=
  max MIN_OVERHANG ((overallWidth - girderCount * MIN_SPACING) / 2)

/-- `usableWidth(overallWidth, overhang, girderCount)`:
`Math.max(overallWidth - 2*overhang, MIN_SPACING*girderCount)`. -/
def usableWidth (overallWidth overhang girderCount : ℚ) : ℚ :=
  max (overallWidth - 2 * overhang) (MIN_SPACING * girderCount)

/-- The three editable geometry fields (`type GeometryField`). -/
inductive GeometryField where
  | girder_spacing
  | girder_count
  | deck_overhang
deriving DecidableEq, Repr

/-- The geometry tuple of `GeometryResponsePayload['geometry']`.
All four fields are JavaScript numbers, modelled as rationals
(`girder_count` included: the source stores it as a plain number). -/
structure Geometry where
  overall_width : ℚ
  girder_spacing : ℚ
  girder_count : ℚ
  deck_overhang : ℚ
deriving DecidableEq, Repr

/-- A field-keyed message map (`Record<string, string>`), restricted to the
three keys the detector ever writes. `none` means the key is absent. -/
structure IssueMap where
  girder_count : Option String
  girder_spacing : Option String
  deck_overhang : Option String
deriving DecidableEq, Repr

/-- The empty message map `{}`. -/
def emptyIssueMap : IssueMap := ⟨none, none, none⟩

/-- `Object.keys(m).length > 0` for an `IssueMap`. -/
def hasAnyIssue (m : IssueMap) : Bool :=
  m.girder_count.isSome || m.girder_spacing.isSome || m.deck_overhang.isSome

/-- JavaScript spread `{...a, ...b}`: a key of `b` overrides the same key of `a`. -/
def spreadOverride (a b : Option String) : Option String :=
  match b with
  | some m => some m
  | none => a

/-- `{...a, ...b}` on whole maps. -/
def mergeIssueMaps (a b : IssueMap) : IssueMap :=
  ⟨spreadOverride a.girder_count b.girder_count,
   spreadOverride a.girder_spacing b.girder_spacing,
   spreadOverride a.deck_overhang b.deck_overhang⟩

/-- `'At least two girders are required.'` -/
def msgCountMin : String := "At least two girders are required."

/-- `'Girder spacing must be greater than zero.'` -/
def msgSpacingPositive : String := "Girder spacing must be greater than zero."

/-- `'Deck overhang must leave room for the girder bay.'` -/
def msgOverhangRoom : String := "Deck overhang must leave room for the girder bay."

/-- `'Girder spacing must be less than the usable deck width.'` -/
def msgSpacingUsable : String := "Girder spacing must be less than the usable deck width."

/-- `'Deck overhang consumes the deck width.'` -/
def msgOverhangConsumes : String := "Deck overhang consumes the deck width."

/-- `'Spacing must allow for at least one girder bay.'` -/
def msgSpacingBay : String := "Spacing must allow for at least one girder bay."

/-- `'Inputs will rebalance to satisfy the width equation.'` -/
def msgWarnSpacingRebalance : String := "Inputs will rebalance to satisfy the width equation."

/-- `'Values will be rebalanced to satisfy overall width = girders × spacing + 2 × overhang.'` -/
def msgWarnEquation : String :=
  "Values will be rebalanced to satisfy overall width = girders × spacing + 2 × overhang."

/-- Result record of `detectGeometryIssues`. -/
structure DetectResult where
  errors : IssueMap
  warnings : IssueMap
  overallWidth : ℚ
deriving DecidableEq, Repr

/-- `detectGeometryIssues(carriagewayWidth, geometry)`, with the source's
sequence of conditional assignments to `errors` / `warnings` translated into
a chain of `let`s in the same order (later assignments overwrite earlier
ones for the same key). -/
def detectGeometryIssues (carriagewayWidth : ℚ) (geometry : Geometry) : DetectResult :=
  let overallWidth := computeOverallWidth carriagewayWidth
  let errCount :=
    if geometry.girder_count < MIN_GIRDER_COUNT then some msgCountMin else none
  let errSpacing1 :=
    if geometry.girder_spacing ≤ 0 then some msgSpacingPositive else none
  let errOverhang1 :=
    if geometry.deck_overhang * 2 ≥ overallWidth then some msgOverhangRoom else none
  let effectiveWidth := overallWidth - 2 * geometry.deck_overhang
  let errSpacing2 :=
    if geometry.girder_spacing ≥ effectiveWidth ∧ errSpacing1 = none then
      some msgSpacingUsable
    else errSpacing1
  let errOverhang2 :=
    if effectiveWidth ≤ 0 then some msgOverhangConsumes else errOverhang1
  let errSpacing3 :=
    if ¬ effectiveWidth ≤ 0 ∧ 0 < geometry.girder_spacing ∧
        effectiveWidth / geometry.girder_spacing ≤ 0 then
      some msgSpacingBay
    else errSpacing2
  let warnSpacing :=
    if ¬ effectiveWidth ≤ 0 ∧ 0 < geometry.girder_spacing ∧
        ¬ effectiveWidth / geometry.girder_spacing ≤ 0 ∧
        |effectiveWidth / geometry.girder_spacing - geometry.girder_count| ≥ 1/2 ∧
        errSpacing2 = none then
      some msgWarnSpacingRebalance
    else none
  let composedWidth :=
    geometry.girder_count * geometry.girder_spacing + 2 * geometry.deck_overhang
  let warnOverhang :=
    if |composedWidth - overallWidth| ≥ 1/2 then some msgWarnEquation else none
  { errors := ⟨errCount, errSpacing3, errOverhang2⟩,
    warnings := ⟨none, warnSpacing, warnOverhang⟩,
    overallWidth := overallWidth }

/-!
`autoAdjustGeometry({carriagewayWidth, geometry, changedField})` is translated
as a chain of named stages, one per mutation of the source's local variables
`girderCount`, `girderSpacing`, `deckOverhang`, so that each stage can be
reasoned about separately.  The source also assigns an overhang from
`clamp((overallWidth - girderCount*girderSpacing)/2, ...)` that is immediately
overwritten by the `residual`-based assignment on the next two lines without
being read; that dead store has no effect on the returned record.
`changedField` is `GeometryField | null`, hence `Option GeometryField`.
-/

/-- `girderCount` after the initial round/clamp:
`Math.min(Math.max(MIN_GIRDER_COUNT, Math.round(g.girder_count)), maxGirders)`. -/
def aaCountClamped (carriagewayWidth : ℚ) (geometry : Geometry) : ℚ :=
  min (max MIN_GIRDER_COUNT ((round geometry.girder_count : ℤ) : ℚ))
    (computeMaxGirders (computeOverallWidth carriagewayWidth))

/-- `girderSpacing = Math.max(MIN_SPACING, geometry.girder_spacing)`. -/
def aaSpacingInput (geometry : Geometry) : ℚ :=
  max MIN_SPACING geometry.girder_spacing

/-- `deckOverhang = clamp(geometry.deck_overhang, MIN_OVERHANG, maxOverhang)` with
`maxOverhang = computeMaxOverhang(overallWidth, girderCount)`. -/
def aaOverhangClamped (carriagewayWidth : ℚ) (geometry : Geometry) : ℚ :=
  clamp geometry.deck_overhang MIN_OVERHANG
    (computeMaxOverhang (computeOverallWidth carriagewayWidth)
      (aaCountClamped carriagewayWidth geometry))

/-- The `changedField` branch of `autoAdjustGeometry`, returning the
`(girderCount, girderSpacing, deckOverhang)` triple it leaves behind. -/
def aaBranch (carriagewayWidth : ℚ) (geometry : Geometry)
    (changedField : Option GeometryField) : ℚ × ℚ × ℚ :=
  let overallWidth := computeOverallWidth carriagewayWidth
  let maxGirders := computeMaxGirders overallWidth
  let girderCount2 := aaCountClamped carriagewayWidth geometry
  let girderSpacing1 := aaSpacingInput geometry
  let deckOverhang2 := aaOverhangClamped carriagewayWidth geometry
  match changedField with
  | some .girder_spacing =>
      let numerator := usableWidth overallWidth deckOverhang2 girderCount2
      let girderCount3 :=
        max MIN_GIRDER_COUNT
          (min maxGirders ((round (numerator / girderSpacing1) : ℤ) : ℚ))
      let maxOverhang2 := computeMaxOverhang overallWidth girderCount3
      let deckOverhang3 := clamp deckOverhang2 MIN_OVERHANG maxOverhang2
      let girderSpacing2 := usableWidth overallWidth deckOverhang3 girderCount3 / girderCount3
      (girderCount3, girderSpacing2, deckOverhang3)
  | some .girder_count | some .deck_overhang =>
      let maxOverhang2 := computeMaxOverhang overallWidth girderCount2
      let deckOverhang3 := clamp deckOverhang2 MIN_OVERHANG maxOverhang2
      let girderSpacing2 := usableWidth overallWidth deckOverhang3 girderCount2 / girderCount2
      (girderCount2, girderSpacing2, deckOverhang3)
  | none => (girderCount2, girderSpacing1, deckOverhang2)

/-- The final re-derivation pass on the spacing:
`girderSpacing = roundToOneDecimal(Math.max(MIN_SPACING, usableWidth(overallWidth,
clamp((overallWidth - girderCount*girderSpacing)/2, MIN_OVERHANG, maxOverhang),
girderCount) / girderCount))`. -/
def aaFinalSpacing (carriagewayWidth : ℚ) (geometry : Geometry)
    (changedField : Option GeometryField) : ℚ :=
  let overallWidth := computeOverallWidth carriagewayWidth
  let girderCount4 := (aaBranch carriagewayWidth geometry changedField).1
  let girderSpacing3 := (aaBranch carriagewayWidth geometry changedField).2.1
  let preliminaryOverhang := (overallWidth - girderCount4 * girderSpacing3) / 2
  let maxOverhang3 := computeMaxOverhang overallWidth girderCount4
  let deckOverhang4 := clamp preliminaryOverhang MIN_OVERHANG maxOverhang3
  let girderSpacing4 := usableWidth overallWidth deckOverhang4 girderCount4 / girderCount4
  roundToOneDecimal (max MIN_SPACING girderSpacing4)

/-- The final overhang: `roundToOneDecimal(clamp(residual / 2, MIN_OVERHANG,
maxOverhang))` with `residual = Math.max(overallWidth - girderCount*girderSpacing, 0)`
taken over the rounded spacing. -/
def aaFinalOverhang (carriagewayWidth : ℚ) (geometry : Geometry)
    (changedField : Option GeometryField) : ℚ :=
  let overallWidth := computeOverallWidth carriagewayWidth
  let girderCount4 := (aaBranch carriagewayWidth geometry changedField).1
  let girderSpacing6 := aaFinalSpacing carriagewayWidth geometry changedField
  let maxOverhang4 := computeMaxOverhang overallWidth girderCount4
  let residual := max (overallWidth - girderCount4 * girderSpacing6) 0
  roundToOneDecimal (clamp (residual / 2) MIN_OVERHANG maxOverhang4)

/-- `autoAdjustGeometry`, assembled from the stages above. -/
def autoAdjustGeometry (carriagewayWidth : ℚ) (geometry : Geometry)
    (changedField : Option GeometryField) : Geometry :=
  { overall_width := roundToTwoDecimals (computeOverallWidth carriagewayWidth),
    girder_spacing := aaFinalSpacing carriagewayWidth geometry changedField,
    girder_count := (aaBranch carriagewayWidth geometry changedField).1,
    deck_overhang := aaFinalOverhang carriagewayWidth geometry changedField }

/-- Result record of `resolveGeometryChange`. -/
structure ResolveResult where
  geometry : Geometry
  errors : IssueMap
  warnings : IssueMap
  raw : Geometry
  isValid : Bool
deriving DecidableEq, Repr

/-- The sanitised edited value: `Number.isFinite(value) ? value : 0`
(every rational is finite, so sanitisation is the identity here), then
`Math.round` for `girder_count` and `roundToOneDecimal` otherwise. -/
def sanitizeNextValue (field : GeometryField) (value : ℚ) : ℚ :=
  if field = .girder_count then ((round value : ℤ) : ℚ)
  else roundToOneDecimal value

/-- The `rawGeometry` candidate built by `resolveGeometryChange`: the current
geometry with `overall_width` recomputed and `[field]` replaced by the
sanitised value. -/
def buildRawGeometry (carriagewayWidth : ℚ) (current : Geometry)
    (field : GeometryField) (value : ℚ) : Geometry :=
  let nextValue := sanitizeNextValue field value
  match field with
  | .girder_spacing =>
      { current with overall_width := computeOverallWidth carriagewayWidth,
                     girder_spacing := nextValue }
  | .girder_count =>
      { current with overall_width := computeOverallWidth carriagewayWidth,
                     girder_count := nextValue }
  | .deck_overhang =>
      { current with overall_width := computeOverallWidth carriagewayWidth,
                     deck_overhang := nextValue }

/-- `resolveGeometryChange({carriagewayWidth, current, field, value})`. -/
def resolveGeometryChange (carriagewayWidth : ℚ) (current : Geometry)
    (field : GeometryField) (value : ℚ) : ResolveResult :=
  let rawGeometry := buildRawGeometry carriagewayWidth current field value
  let rawIssues := detectGeometryIssues carriagewayWidth rawGeometry
  let adjusted := autoAdjustGeometry carriagewayWidth rawGeometry (some field)
  let adjustedIssues := detectGeometryIssues carriagewayWidth adjusted
  if hasAnyIssue adjustedIssues.errors then
    { geometry := current,
      errors := adjustedIssues.errors,
      warnings := mergeIssueMaps rawIssues.warnings adjustedIssues.warnings,
      raw := rawGeometry,
      isValid := false }
  else
    { geometry := adjusted,
      errors := emptyIssueMap,
      warnings := mergeIssueMaps rawIssues.warnings adjustedIssues.warnings,
      raw := rawGeometry,
      isValid := true }

/-- `Number(x.toFixed(1))`: the ES `toFixed` rounds to the nearest multiple
of `10^-1`, picking the larger integer on a tie, after splitting off the
sign of a negative argument. -/
def toFixedOne (x : ℚ) : ℚ :=
  if x < 0 then -(((round (-x * 10) : ℤ) : ℚ) / 10)
  else ((round (x * 10) : ℤ) : ℚ) / 10

/-- `Number(x.toFixed(2))`, analogously. -/
def toFixedTwo (x : ℚ) : ℚ :=
  if x < 0 then -(((round (-x * 100) : ℤ) : ℚ) / 100)
  else ((round (x * 100) : ℤ) : ℚ) / 100

/-- `deriveGeometrySeed(carriagewayWidth)` from `App.tsx`: the form-load
seed geometry. -/
def deriveGeometrySeed (carriagewayWidth : ℚ) : Geometry :=
  let overallWidth := toFixedTwo (carriagewayWidth + 5)
  let girderCount : ℚ := 4
  let girderSpacing : ℚ := 5/2
  let deckOverhang := toFixedOne ((overallWidth - girderCount * girderSpacing) / 2)
  { overall_width := overallWidth,
    girder_spacing := girderSpacing,
    girder_count := girderCount,
    deck_overhang := deckOverhang }

/-!
The exact-rational definitions above idealise JavaScript numbers.  For the
claims that pin exact committed values at a concrete input (Scenarios A and
C), that idealisation is not faithful enough: the committed overhang at
Scenario C depends on IEEE-754 binary64 rounding (`13.5 - 2*5.9` evaluates
to `1.6999999999999993`, not `1.7`).  The following `…FP` definitions
translate the same source a second time with every arithmetic operation
rounded to binary64 (`fl`), in the normal range — no subnormals, overflow
or NaN occur on the evaluated traces.  Comparisons, `Math.max`/`Math.min`,
`Math.abs`, `Math.floor` and `Math.round` are exact on doubles and stay
unrounded; `Math.round` follows the ES specification (nearest integer,
ties toward `+∞`, on the exact value of its argument).
-/

/-- Round a rational to the nearest integer, ties to even — the IEEE-754
default rounding used for every JavaScript arithmetic operation. -/
def roundNearestEven (x : ℚ) : ℤ :=
  let f := ⌊x⌋
  if x - f < 1/2 then f
  else if 1/2 < x - f then f + 1
  else if f % 2 = 0 then f else f + 1

/-- Binary64 rounding of a positive rational: 53 significand bits,
round-to-nearest ties-to-even, normal range. -/
def flPos (q : ℚ) : ℚ :=
  ((roundNearestEven (q * (2:ℚ) ^ ((52:ℤ) - Int.log 2 q)) : ℤ) : ℚ) *
    (2:ℚ) ^ (Int.log 2 q - (52:ℤ))

/-- Binary64 rounding of a rational (`fl` as in floating-point literature):
the double-precision value a JavaScript arithmetic operation with this
exact result would produce. -/
def fl (q : ℚ) : ℚ :=
  if q = 0 then 0 else if q < 0 then -flPos (-q) else flPos q

/-- `Math.round(value * 10) / 10` under binary64 arithmetic. -/
def roundToOneDecimalFP (value : ℚ) : ℚ :=
  fl (((round (fl (value * 10)) : ℤ) : ℚ) / 10)

/-- `Math.round(value * 100) / 100` under binary64 arithmetic. -/
def roundToTwoDecimalsFP (value : ℚ) : ℚ :=
  fl (((round (fl (value * 100)) : ℤ) : ℚ) / 100)

/-- `computeOverallWidth` under binary64 arithmetic. -/
def computeOverallWidthFP (carriagewayWidth : ℚ) : ℚ :=
  max (roundToTwoDecimalsFP (fl (carriagewayWidth + 5)))
    (fl (fl (MIN_SPACING * 2) + fl (MIN_OVERHANG * 2)))

/-- `computeMaxGirders` under binary64 arithmetic. -/
def computeMaxGirdersFP (overallWidth : ℚ) : ℚ :=
  max MIN_GIRDER_COUNT
    ((⌊fl (fl (overallWidth - fl (2 * MIN_OVERHANG)) / MIN_SPACING)⌋ : ℤ) : ℚ)

/-- `computeMaxOverhang` under binary64 arithmetic. -/
def computeMaxOverhangFP (overallWidth girderCount : ℚ) : ℚ :=
  max MIN_OVERHANG (fl (fl (overallWidth - fl (girderCount * MIN_SPACING)) / 2))

/-- `usableWidth` under binary64 arithmetic. -/
def usableWidthFP (overallWidth overhang girderCount : ℚ) : ℚ :=
  max (fl (overallWidth - fl (2 * overhang))) (fl (MIN_SPACING * girderCount))

/-- `detectGeometryIssues` under binary64 arithmetic. -/
def detectGeometryIssuesFP (carriagewayWidth : ℚ) (geometry : Geometry) : DetectResult :=
  let overallWidth := computeOverallWidthFP carriagewayWidth
  let errCount :=
    if geometry.girder_count < MIN_GIRDER_COUNT then some msgCountMin else none
  let errSpacing1 :=
    if geometry.girder_spacing ≤ 0 then some msgSpacingPositive else none
  let errOverhang1 :=
    if fl (geometry.deck_overhang * 2) ≥ overallWidth then some msgOverhangRoom else none
  let effectiveWidth := fl (overallWidth - fl (2 * geometry.deck_overhang))
  let errSpacing2 :=
    if geometry.girder_spacing ≥ effectiveWidth ∧ errSpacing1 = none then
      some msgSpacingUsable
    else errSpacing1
  let errOverhang2 :=
    if effectiveWidth ≤ 0 then some msgOverhangConsumes else errOverhang1
  let errSpacing3 :=
    if ¬ effectiveWidth ≤ 0 ∧ 0 < geometry.girder_spacing ∧
        fl (effectiveWidth / geometry.girder_spacing) ≤ 0 then
      some msgSpacingBay
    else errSpacing2
  let warnSpacing :=
    if ¬ effectiveWidth ≤ 0 ∧ 0 < geometry.girder_spacing ∧
        ¬ fl (effectiveWidth / geometry.girder_spacing) ≤ 0 ∧
        |fl (fl (effectiveWidth / geometry.girder_spacing) - geometry.girder_count)| ≥ 1/2 ∧
        errSpacing2 = none then
      some msgWarnSpacingRebalance
    else none
  let composedWidth :=
    fl (fl (geometry.girder_count * geometry.girder_spacing) + fl (2 * geometry.deck_overhang))
  let warnOverhang :=
    if |fl (composedWidth - overallWidth)| ≥ 1/2 then some msgWarnEquation else none
  { errors := ⟨errCount, errSpacing3, errOverhang2⟩,
    warnings := ⟨none, warnSpacing, warnOverhang⟩,
    overallWidth := overallWidth }

/-- The initial girder-count clamp of `autoAdjustGeometry` under binary64
arithmetic. -/
def aaCountClampedFP (carriagewayWidth : ℚ) (geometry : Geometry) : ℚ :=
  min (max MIN_GIRDER_COUNT ((round geometry.girder_count : ℤ) : ℚ))
    (computeMaxGirdersFP (computeOverallWidthFP carriagewayWidth))

/-- The spacing floor of `autoAdjustGeometry` (no arithmetic, exact). -/
def aaSpacingInputFP (geometry : Geometry) : ℚ :=
  max MIN_SPACING geometry.girder_spacing

/-- The initial overhang clamp of `autoAdjustGeometry` under binary64
arithmetic. -/
def aaOverhangClampedFP (carriagewayWidth : ℚ) (geometry : Geometry) : ℚ :=
  clamp geometry.deck_overhang MIN_OVERHANG
    (computeMaxOverhangFP (computeOverallWidthFP carriagewayWidth)
      (aaCountClampedFP carriagewayWidth geometry))

/-- The `changedField` branch of `autoAdjustGeometry` under binary64
arithmetic. -/
def aaBranchFP (carriagewayWidth : ℚ) (geometry : Geometry)
    (changedField : Option GeometryField) : ℚ × ℚ × ℚ :=
  let overallWidth := computeOverallWidthFP carriagewayWidth
  let maxGirders := computeMaxGirdersFP overallWidth
  let girderCount2 := aaCountClampedFP carriagewayWidth geometry
  let girderSpacing1 := aaSpacingInputFP geometry
  let deckOverhang2 := aaOverhangClampedFP carriagewayWidth geometry
  match changedField with
  | some .girder_spacing =>
      let numerator := usableWidthFP overallWidth deckOverhang2 girderCount2
      let girderCount3 :=
        max MIN_GIRDER_COUNT
          (min maxGirders ((round (fl (numerator / girderSpacing1)) : ℤ) : ℚ))
      let maxOverhang2 := computeMaxOverhangFP overallWidth girderCount3
      let deckOverhang3 := clamp deckOverhang2 MIN_OVERHANG maxOverhang2
      let girderSpacing2 := fl (usableWidthFP overallWidth deckOverhang3 girderCount3 / girderCount3)
      (girderCount3, girderSpacing2, deckOverhang3)
  | some .girder_count | some .deck_overhang =>
      let maxOverhang2 := computeMaxOverhangFP overallWidth girderCount2
      let deckOverhang3 := clamp deckOverhang2 MIN_OVERHANG maxOverhang2
      let girderSpacing2 := fl (usableWidthFP overallWidth deckOverhang3 girderCount2 / girderCount2)
      (girderCount2, girderSpacing2, deckOverhang3)
  | none => (girderCount2, girderSpacing1, deckOverhang2)

/-- The final spacing re-derivation of `autoAdjustGeometry` under binary64
arithmetic. -/
def aaFinalSpacingFP (carriagewayWidth : ℚ) (geometry : Geometry)
    (changedField : Option GeometryField) : ℚ :=
  let overallWidth := computeOverallWidthFP carriagewayWidth
  let girderCount4 := (aaBranchFP carriagewayWidth geometry changedField).1
  let girderSpacing3 := (aaBranchFP carriagewayWidth geometry changedField).2.1
  let preliminaryOverhang := fl (fl (overallWidth - fl (girderCount4 * girderSpacing3)) / 2)
  let maxOverhang3 := computeMaxOverhangFP overallWidth girderCount4
  let deckOverhang4 := clamp preliminaryOverhang MIN_OVERHANG maxOverhang3
  let girderSpacing4 := fl (usableWidthFP overallWidth deckOverhang4 girderCount4 / girderCount4)
  roundToOneDecimalFP (max MIN_SPACING girderSpacing4)

/-- The final overhang of `autoAdjustGeometry` under binary64 arithmetic
(the source's dead store of the pre-`residual` overhang is omitted, as in
the exact model). -/
def aaFinalOverhangFP (carriagewayWidth : ℚ) (geometry : Geometry)
    (changedField : Option GeometryField) : ℚ :=
  let overallWidth := computeOverallWidthFP carriagewayWidth
  let girderCount4 := (aaBranchFP carriagewayWidth geometry changedField).1
  let girderSpacing6 := aaFinalSpacingFP carriagewayWidth geometry changedField
  let maxOverhang4 := computeMaxOverhangFP overallWidth girderCount4
  let residual := max (fl (overallWidth - fl (girderCount4 * girderSpacing6))) 0
  roundToOneDecimalFP (clamp (fl (residual / 2)) MIN_OVERHANG maxOverhang4)

/-- `autoAdjustGeometry` under binary64 arithmetic. -/
def autoAdjustGeometryFP (carriagewayWidth : ℚ) (geometry : Geometry)
    (changedField : Option GeometryField) : Geometry :=
  { overall_width := roundToTwoDecimalsFP (computeOverallWidthFP carriagewayWidth),
    girder_spacing := aaFinalSpacingFP carriagewayWidth geometry changedField,
    girder_count := (aaBranchFP carriagewayWidth geometry changedField).1,
    deck_overhang := aaFinalOverhangFP carriagewayWidth geometry changedField }

/-- The sanitiser of `resolveGeometryChange` under binary64 arithmetic. -/
def sanitizeNextValueFP (field : GeometryField) (value : ℚ) : ℚ :=
  if field = .girder_count then ((round value : ℤ) : ℚ)
  else roundToOneDecimalFP value

/-- The raw candidate of `resolveGeometryChange` under binary64 arithmetic. -/
def buildRawGeometryFP (carriagewayWidth : ℚ) (current : Geometry)
    (field : GeometryField) (value : ℚ) : Geometry :=
  let nextValue := sanitizeNextValueFP field value
  match field with
  | .girder_spacing =>
      { current with overall_width := computeOverallWidthFP carriagewayWidth,
                     girder_spacing := nextValue }
  | .girder_count =>
      { current with overall_width := computeOverallWidthFP carriagewayWidth,
                     girder_count := nextValue }
  | .deck_overhang =>
      { current with overall_width := computeOverallWidthFP carriagewayWidth,
                     deck_overhang := nextValue }

/-- `resolveGeometryChange` under binary64 arithmetic. -/
def resolveGeometryChangeFP (carriagewayWidth : ℚ) (current : Geometry)
    (field : GeometryField) (value : ℚ) : ResolveResult :=
  let rawGeometry := buildRawGeometryFP carriagewayWidth current field value
  let rawIssues := detectGeometryIssuesFP carriagewayWidth rawGeometry
  let adjusted := autoAdjustGeometryFP carriagewayWidth rawGeometry (some field)
  let adjustedIssues := detectGeometryIssuesFP carriagewayWidth adjusted
  if hasAnyIssue adjustedIssues.errors then
    { geometry := current,
      errors := adjustedIssues.errors,
      warnings := mergeIssueMaps rawIssues.warnings adjustedIssues.warnings,
      raw := rawGeometry,
      isValid := false }
  else
    { geometry := adjusted,
      errors := emptyIssueMap,
      warnings := mergeIssueMaps rawIssues.warnings adjustedIssues.warnings,
      raw := rawGeometry,
      isValid := true }

/-- The girder-count ceiling as the specification states it:
`floor((overall_width − 2×MIN_OVERHANG) / MIN_SPACING)`, without the
additional floor at `MIN_GIRDER_COUNT` that the source's
`computeMaxGirders` applies.  Used to state the claimed solver bound. -/
def specMaxGirders (overallWidth : ℚ) : ℚ :=
  ((⌊(overallWidth - 2 * MIN_OVERHANG) / MIN_SPACING⌋ : ℤ) : ℚ)

/-! ### Helper lemmas -/

/-- `round` is monotone. -/
lemma round_mono_rat {a b : ℚ} (h : a ≤ b) : round a ≤ round b := by
  rw [round_eq, round_eq]
  exact Int.floor_le_floor (by linarith)

/-- Values at least `1/2` stay at least `1/2` after rounding to one decimal. -/
lemma half_le_roundToOneDecimal {x : ℚ} (h : 1/2 ≤ x) : 1/2 ≤ roundToOneDecimal x := by
  unfold roundToOneDecimal
  have h5 : (5 : ℤ) ≤ round (x * 10) := by
    have h50 : round (5 : ℚ) ≤ round (x * 10) := round_mono_rat (by linarith)
    have : round (5 : ℚ) = 5 := by simp
    omega
  have h5' : (5 : ℚ) ≤ ((round (x * 10) : ℤ) : ℚ) := by exact_mod_cast h5
  linarith

/-- The clamp lower bound always holds. -/
lemma clamp_le_left (x lo hi : ℚ) : lo ≤ clamp x lo hi := le_max_left _ _

/-- The overall width is floored at `2`. -/
lemma two_le_computeOverallWidth (carriagewayWidth : ℚ) :
    2 ≤ computeOverallWidth carriagewayWidth := by
  have h : MIN_SPACING * 2 + MIN_OVERHANG * 2 = 2 := by
    norm_num [MIN_SPACING, MIN_OVERHANG]
  rw [computeOverallWidth, h]
  exact le_max_right _ _

/-- `roundToTwoDecimals` fixes integer multiples of `1/100`. -/
lemma roundToTwoDecimals_intCast_div (n : ℤ) :
    roundToTwoDecimals ((n : ℚ) / 100) = (n : ℚ) / 100 := by
  unfold roundToTwoDecimals
  rw [div_mul_cancel₀ _ (by norm_num : (100 : ℚ) ≠ 0), round_intCast]

/-- The overall width is already rounded to two decimals, so the final
rounding in the solver leaves it unchanged. -/
lemma roundToTwoDecimals_computeOverallWidth (carriagewayWidth : ℚ) :
    roundToTwoDecimals (computeOverallWidth carriagewayWidth) =
      computeOverallWidth carriagewayWidth := by
  have h1 : roundToTwoDecimals (carriagewayWidth + 5) =
      ((round ((carriagewayWidth + 5) * 100) : ℤ) : ℚ) / 100 := rfl
  have h2 : MIN_SPACING * 2 + MIN_OVERHANG * 2 = ((200 : ℤ) : ℚ) / 100 := by
    norm_num [MIN_SPACING, MIN_OVERHANG]
  rw [computeOverallWidth, h1, h2]
  rcases max_cases (((round ((carriagewayWidth + 5) * 100) : ℤ) : ℚ) / 100)
      (((200 : ℤ) : ℚ) / 100) with ⟨heq, _⟩ | ⟨heq, _⟩ <;>
    rw [heq] <;> exact roundToTwoDecimals_intCast_div _

/-- An empty issue map is exactly one with no `some` field. -/
lemma hasAnyIssue_eq_false_iff (m : IssueMap) :
    hasAnyIssue m = false ↔ m = emptyIssueMap := by
  cases m with
  | mk a b c =>
    cases a <;> cases b <;> cases c <;> simp [hasAnyIssue, emptyIssueMap]

/-- The detector's `deck_overhang` error slot, characterised: the
"consumes the deck width" overwrite is the outer conditional. -/
lemma detect_err_overhang (carriagewayWidth : ℚ) (g : Geometry) :
    (detectGeometryIssues carriagewayWidth g).errors.deck_overhang =
      if computeOverallWidth carriagewayWidth - 2 * g.deck_overhang ≤ 0 then
        some msgOverhangConsumes
      else if g.deck_overhang * 2 ≥ computeOverallWidth carriagewayWidth then
        some msgOverhangRoom
      else none := rfl

/-- The detector's `girder_spacing` error slot, characterised in the
source's overwrite order. -/
lemma detect_err_spacing (carriagewayWidth : ℚ) (g : Geometry) :
    (detectGeometryIssues carriagewayWidth g).errors.girder_spacing =
      if ¬ computeOverallWidth carriagewayWidth - 2 * g.deck_overhang ≤ 0 ∧
          0 < g.girder_spacing ∧
          (computeOverallWidth carriagewayWidth - 2 * g.deck_overhang) / g.girder_spacing ≤ 0 then
        some msgSpacingBay
      else if g.girder_spacing ≥ computeOverallWidth carriagewayWidth - 2 * g.deck_overhang ∧
          (if g.girder_spacing ≤ 0 then some msgSpacingPositive else (none : Option String)) = none then
        some msgSpacingUsable
      else if g.girder_spacing ≤ 0 then some msgSpacingPositive
      else none := rfl

/-- The detector's `deck_overhang` warning slot: set exactly when the
composed width drifts from the overall width by at least `1/2`. -/
lemma detect_warn_overhang (carriagewayWidth : ℚ) (g : Geometry) :
    (detectGeometryIssues carriagewayWidth g).warnings.deck_overhang =
      if |g.girder_count * g.girder_spacing + 2 * g.deck_overhang -
            computeOverallWidth carriagewayWidth| ≥ 1/2 then
        some msgWarnEquation
      else none := rfl

/-- Merging keeps the second map's entry whenever it is present. -/
lemma spreadOverride_some (a : Option String) (m : String) :
    spreadOverride a (some m) = some m := rfl

/-- The source's girder-count cap never falls below `MIN_GIRDER_COUNT`. -/
lemma min_count_le_computeMaxGirders (overallWidth : ℚ) :
    MIN_GIRDER_COUNT ≤ computeMaxGirders overallWidth := le_max_left _ _

/-- For overall widths of at least `2` (which `computeOverallWidth`
guarantees), the source's cap agrees with the specification's formula. -/
lemma computeMaxGirders_eq_spec {overallWidth : ℚ} (hW : 2 ≤ overallWidth) :
    computeMaxGirders overallWidth = specMaxGirders overallWidth := by
  unfold computeMaxGirders specMaxGirders
  refine max_eq_right ?_
  have h2 : ((2 : ℤ) : ℚ) ≤ (overallWidth - 2 * MIN_OVERHANG) / MIN_SPACING := by
    rw [show MIN_OVERHANG = 1/2 from rfl, show MIN_SPACING = 1/2 from rfl,
      div_eq_mul_inv]
    norm_num
    linarith
  have hfl := Int.le_floor.mpr h2
  rw [show MIN_GIRDER_COUNT = ((2 : ℤ) : ℚ) from by norm_num [MIN_GIRDER_COUNT]]
  exact_mod_cast hfl

/-- The branch stage keeps the girder count at or above `MIN_GIRDER_COUNT`. -/
lemma aaBranch_count_lower (carriagewayWidth : ℚ) (geometry : Geometry)
    (changedField : Option GeometryField) :
    MIN_GIRDER_COUNT ≤ (aaBranch carriagewayWidth geometry changedField).1 := by
  have hclamped : MIN_GIRDER_COUNT ≤ aaCountClamped carriagewayWidth geometry :=
    le_min (le_max_left _ _) (min_count_le_computeMaxGirders _)
  cases changedField with
  | none => simpa [aaBranch] using hclamped
  | some fld =>
    cases fld with
    | girder_spacing => simp [aaBranch]
    | girder_count => simpa [aaBranch] using hclamped
    | deck_overhang => simpa [aaBranch] using hclamped

/-- The branch stage keeps the girder count at or below the source's cap. -/
lemma aaBranch_count_upper (carriagewayWidth : ℚ) (geometry : Geometry)
    (changedField : Option GeometryField) :
    (aaBranch carriagewayWidth geometry changedField).1 ≤
      computeMaxGirders (computeOverallWidth carriagewayWidth) := by
  have hclamped : aaCountClamped carriagewayWidth geometry ≤
      computeMaxGirders (computeOverallWidth carriagewayWidth) := min_le_right _ _
  cases changedField with
  | none => simpa [aaBranch] using hclamped
  | some fld =>
    cases fld with
    | girder_spacing =>
      simp only [aaBranch]
      exact max_le (min_count_le_computeMaxGirders _) (min_le_left _ _)
    | girder_count => simpa [aaBranch] using hclamped
    | deck_overhang => simpa [aaBranch] using hclamped

/-- The returned overall width equals the (already two-decimal) computed
overall width. -/
lemma autoAdjust_overall_width (carriagewayWidth : ℚ) (geometry : Geometry)
    (changedField : Option GeometryField) :
    (autoAdjustGeometry carriagewayWidth geometry changedField).overall_width =
      computeOverallWidth carriagewayWidth :=
  roundToTwoDecimals_computeOverallWidth carriagewayWidth

/-- The orchestrator's result, written out as the single branch on the
post-solve detector pass that the source performs. -/
lemma resolve_spec (carriagewayWidth : ℚ) (current : Geometry)
    (field : GeometryField) (value : ℚ) :
    resolveGeometryChange carriagewayWidth current field value =
      if hasAnyIssue (detectGeometryIssues carriagewayWidth
          (autoAdjustGeometry carriagewayWidth
            (buildRawGeometry carriagewayWidth current field value) (some field))).errors then
        { geometry := current,
          errors := (detectGeometryIssues carriagewayWidth
            (autoAdjustGeometry carriagewayWidth
              (buildRawGeometry carriagewayWidth current field value) (some field))).errors,
          warnings := mergeIssueMaps
            (detectGeometryIssues carriagewayWidth
              (buildRawGeometry carriagewayWidth current field value)).warnings
            (detectGeometryIssues carriagewayWidth
              (autoAdjustGeometry carriagewayWidth
                (buildRawGeometry carriagewayWidth current field value) (some field))).warnings,
          raw := buildRawGeometry carriagewayWidth current field value,
          isValid := false }
      else
        { geometry := autoAdjustGeometry carriagewayWidth
            (buildRawGeometry carriagewayWidth current field value) (some field),
          errors := emptyIssueMap,
          warnings := mergeIssueMaps
            (detectGeometryIssues carriagewayWidth
              (buildRawGeometry carriagewayWidth current field value)).warnings
            (detectGeometryIssues carriagewayWidth
              (autoAdjustGeometry carriagewayWidth
                (buildRawGeometry carriagewayWidth current field value) (some field))).warnings,
          raw := buildRawGeometry carriagewayWidth current field value,
          isValid := true } := rfl

/-- The `deck_overhang` field is not the `girder_count` field (used to
reduce the sanitiser's ternary during concrete evaluations). -/
lemma deck_overhang_ne_girder_count :
    GeometryField.deck_overhang ≠ GeometryField.girder_count :=
  fun h => GeometryField.noConfusion h

/-- Characterise `Int.log 2` on rationals by the enclosing binade. -/
lemma Int_log_two_eq {q : ℚ} {e : ℤ} (h0 : 0 < q)
    (hlo : (2:ℚ) ^ e ≤ q) (hhi : q < (2:ℚ) ^ (e + 1)) : Int.log 2 q = e := by
  have hb : (1 : ℕ) < 2 := by norm_num
  have hcast : ((2 : ℕ) : ℚ) = (2 : ℚ) := by norm_num
  have h1 : e ≤ Int.log 2 q := by
    rw [← Int.zpow_le_iff_le_log hb h0, hcast]
    exact hlo
  have h2 : Int.log 2 q < e + 1 := by
    rw [← Int.lt_zpow_iff_log_lt hb h0, hcast]
    exact hhi
  omega

/-- Evaluate `fl` at a positive rational from its binade, its rounded
significand and the resulting value. -/
lemma fl_eq_of (q v : ℚ) (e n : ℤ) (h0 : 0 < q)
    (hlo : (2:ℚ) ^ e ≤ q) (hhi : q < (2:ℚ) ^ (e + 1))
    (hn : roundNearestEven (q * (2:ℚ) ^ ((52:ℤ) - e)) = n)
    (hv : ((n : ℤ) : ℚ) * (2:ℚ) ^ (e - (52:ℤ)) = v) : fl q = v := by
  have hlog : Int.log 2 q = e := Int_log_two_eq h0 hlo hhi
  rw [fl, if_neg (ne_of_gt h0), if_neg (not_lt.mpr h0.le), flPos, hlog, hn, hv]

/-- `fl` commutes with negation. -/
lemma fl_neg (q : ℚ) : fl (-q) = -fl q := by
  by_cases h0 : q = 0
  · simp [h0, fl]
  by_cases hneg : q < 0
  · have hpos : 0 < -q := neg_pos.mpr hneg
    rw [show fl (-q) = flPos (-q) from by
      rw [fl, if_neg (ne_of_gt hpos), if_neg (not_lt.mpr hpos.le)]]
    rw [show fl q = -flPos (-q) from by rw [fl, if_neg h0, if_pos hneg]]
    rw [neg_neg]
  · have hpos : 0 < q := lt_of_le_of_ne (not_lt.mp hneg) (Ne.symm h0)
    rw [show fl (-q) = -flPos q from by
      rw [fl, if_neg (by simpa using h0), if_pos (neg_neg_iff_pos.mpr hpos), neg_neg]]
    rw [show fl q = flPos q from by rw [fl, if_neg h0, if_neg hneg]]

/-!
Binary64 rounding facts for the Scenario C trace: each lemma certifies one
`fl` evaluation that the double-precision source performs (the binade `e`,
the rounded 53-bit significand `n`, and the resulting value were computed
from the IEEE-754 semantics and are checked here by `norm_num`).
-/

lemma flScenC01 : fl (31/5) = 6980579422424269/1125899906842624 :=
  fl_eq_of (31/5) (6980579422424269/1125899906842624) (2) (6980579422424269) (by norm_num) (by norm_num)
    (by norm_num) (by norm_num [roundNearestEven]) (by norm_num)

lemma flScenC02 : fl (11/20) = 2476979795053773/4503599627370496 :=
  fl_eq_of (11/20) (2476979795053773/4503599627370496) (-1) (4953959590107546) (by norm_num) (by norm_num)
    (by norm_num) (by norm_num [roundNearestEven]) (by norm_num)

lemma flScenC03 : fl (17/20) = 7656119366529843/9007199254740992 :=
  fl_eq_of (17/20) (7656119366529843/9007199254740992) (-1) (7656119366529843) (by norm_num) (by norm_num)
    (by norm_num) (by norm_num [roundNearestEven]) (by norm_num)

lemma flScenC04 : fl (38280596832649215/4503599627370496) = 17/2 :=
  fl_eq_of (38280596832649215/4503599627370496) (17/2) (3) (4785074604081152) (by norm_num) (by norm_num)
    (by norm_num) (by norm_num [roundNearestEven]) (by norm_num)

lemma flScenC05 : fl (9/10) = 8106479329266893/9007199254740992 :=
  fl_eq_of (9/10) (8106479329266893/9007199254740992) (-1) (8106479329266893) (by norm_num) (by norm_num)
    (by norm_num) (by norm_num [roundNearestEven]) (by norm_num)

lemma flScenC06 : fl (1) = 1 :=
  fl_eq_of (1) (1) (0) (4503599627370496) (by norm_num) (by norm_num)
    (by norm_num) (by norm_num [roundNearestEven]) (by norm_num)

lemma flScenC07 : fl (2) = 2 :=
  fl_eq_of (2) (2) (1) (4503599627370496) (by norm_num) (by norm_num)
    (by norm_num) (by norm_num [roundNearestEven]) (by norm_num)

lemma flScenC08 : fl (27/2) = 27/2 :=
  fl_eq_of (27/2) (27/2) (3) (7599824371187712) (by norm_num) (by norm_num)
    (by norm_num) (by norm_num [roundNearestEven]) (by norm_num)

lemma flScenC09 : fl (1350) = 1350 :=
  fl_eq_of (1350) (1350) (10) (5937362789990400) (by norm_num) (by norm_num)
    (by norm_num) (by norm_num [roundNearestEven]) (by norm_num)

lemma flScenC10 : fl (8106479329266893/4503599627370496) = 8106479329266893/4503599627370496 :=
  fl_eq_of (8106479329266893/4503599627370496) (8106479329266893/4503599627370496) (0) (8106479329266893) (by norm_num) (by norm_num)
    (by norm_num) (by norm_num [roundNearestEven]) (by norm_num)

lemma flScenC11 : fl (52692115640234803/4503599627370496) = 3293257227514675/281474976710656 :=
  fl_eq_of (52692115640234803/4503599627370496) (3293257227514675/281474976710656) (3) (6586514455029350) (by norm_num) (by norm_num)
    (by norm_num) (by norm_num [roundNearestEven]) (by norm_num)

lemma flScenC12 : fl (13173028910058700/6980579422424269) = 8498728329070129/4503599627370496 :=
  fl_eq_of (13173028910058700/6980579422424269) (8498728329070129/4503599627370496) (0) (8498728329070129) (by norm_num) (by norm_num)
    (by norm_num) (by norm_num [roundNearestEven]) (by norm_num)

lemma flScenC13 : fl (508470925670863/4503599627370496) = 508470925670863/4503599627370496 :=
  fl_eq_of (508470925670863/4503599627370496) (508470925670863/4503599627370496) (-4) (8135534810733808) (by norm_num) (by norm_num)
    (by norm_num) (by norm_num [roundNearestEven]) (by norm_num)

lemma flScenC14 : fl (6980579422424269/562949953421312) = 6980579422424269/562949953421312 :=
  fl_eq_of (6980579422424269/562949953421312) (6980579422424269/562949953421312) (3) (6980579422424269) (by norm_num) (by norm_num)
    (by norm_num) (by norm_num [roundNearestEven]) (by norm_num)

lemma flScenC15 : fl (63951114708661045/4503599627370496) = 7993889338582631/562949953421312 :=
  fl_eq_of (63951114708661045/4503599627370496) (7993889338582631/562949953421312) (3) (7993889338582631) (by norm_num) (by norm_num)
    (by norm_num) (by norm_num [roundNearestEven]) (by norm_num)

lemma flScenC16 : fl (394064967394919/562949953421312) = 394064967394919/562949953421312 :=
  fl_eq_of (394064967394919/562949953421312) (394064967394919/562949953421312) (-1) (6305039478318704) (by norm_num) (by norm_num)
    (by norm_num) (by norm_num [roundNearestEven]) (by norm_num)

lemma flScenC17 : fl (25/2) = 25/2 :=
  fl_eq_of (25/2) (25/2) (3) (7036874417766400) (by norm_num) (by norm_num)
    (by norm_num) (by norm_num [roundNearestEven]) (by norm_num)

lemma flScenC18 : fl (25) = 25 :=
  fl_eq_of (25) (25) (4) (7036874417766400) (by norm_num) (by norm_num)
    (by norm_num) (by norm_num [roundNearestEven]) (by norm_num)

lemma flScenC19 : fl (25/4) = 25/4 :=
  fl_eq_of (25/4) (25/4) (2) (7036874417766400) (by norm_num) (by norm_num)
    (by norm_num) (by norm_num [roundNearestEven]) (by norm_num)

lemma flScenC20 : fl (3293257227514675/562949953421312) = 3293257227514675/562949953421312 :=
  fl_eq_of (3293257227514675/562949953421312) (3293257227514675/562949953421312) (2) (6586514455029350) (by norm_num) (by norm_num)
    (by norm_num) (by norm_num [roundNearestEven]) (by norm_num)

lemma flScenC21 : fl (3293257227514675/281474976710656) = 3293257227514675/281474976710656 :=
  fl_eq_of (3293257227514675/281474976710656) (3293257227514675/281474976710656) (3) (6586514455029350) (by norm_num) (by norm_num)
    (by norm_num) (by norm_num [roundNearestEven]) (by norm_num)

lemma flScenC22 : fl (506654958079181/281474976710656) = 506654958079181/281474976710656 :=
  fl_eq_of (506654958079181/281474976710656) (506654958079181/281474976710656) (0) (8106479329266896) (by norm_num) (by norm_num)
    (by norm_num) (by norm_num [roundNearestEven]) (by norm_num)

lemma flScenC23 : fl (506654958079181/562949953421312) = 506654958079181/562949953421312 :=
  fl_eq_of (506654958079181/562949953421312) (506654958079181/562949953421312) (-1) (8106479329266896) (by norm_num) (by norm_num)
    (by norm_num) (by norm_num [roundNearestEven]) (by norm_num)

lemma flScenC24 : fl (16466286137573375/281474976710656) = 117/2 :=
  fl_eq_of (16466286137573375/281474976710656) (117/2) (5) (8233143068786688) (by norm_num) (by norm_num)
    (by norm_num) (by norm_num [roundNearestEven]) (by norm_num)

lemma flScenC25 : fl (59/10) = 3321404725185741/562949953421312 :=
  fl_eq_of (59/10) (3321404725185741/562949953421312) (2) (6642809450371482) (by norm_num) (by norm_num)
    (by norm_num) (by norm_num [roundNearestEven]) (by norm_num)

lemma flScenC26 : fl (3321404725185741/281474976710656) = 3321404725185741/281474976710656 :=
  fl_eq_of (3321404725185741/281474976710656) (3321404725185741/281474976710656) (3) (6642809450371482) (by norm_num) (by norm_num)
    (by norm_num) (by norm_num [roundNearestEven]) (by norm_num)

lemma flScenC27 : fl (478507460408115/281474976710656) = 478507460408115/281474976710656 :=
  fl_eq_of (478507460408115/281474976710656) (478507460408115/281474976710656) (0) (7656119366529840) (by norm_num) (by norm_num)
    (by norm_num) (by norm_num [roundNearestEven]) (by norm_num)

lemma flScenC28 : fl (478507460408115/562949953421312) = 478507460408115/562949953421312 :=
  fl_eq_of (478507460408115/562949953421312) (478507460408115/562949953421312) (-1) (7656119366529840) (by norm_num) (by norm_num)
    (by norm_num) (by norm_num [roundNearestEven]) (by norm_num)

lemma flScenC29 : fl (2392537302040575/281474976710656) = 2392537302040575/281474976710656 :=
  fl_eq_of (2392537302040575/281474976710656) (2392537302040575/281474976710656) (3) (4785074604081150) (by norm_num) (by norm_num)
    (by norm_num) (by norm_num [roundNearestEven]) (by norm_num)

lemma flScenC30 : fl (4/5) = 3602879701896397/4503599627370496 :=
  fl_eq_of (4/5) (3602879701896397/4503599627370496) (-1) (7205759403792794) (by norm_num) (by norm_num)
    (by norm_num) (by norm_num [roundNearestEven]) (by norm_num)

lemma flScenC31 : fl (3602879701896397/2251799813685248) = 3602879701896397/2251799813685248 :=
  fl_eq_of (3602879701896397/2251799813685248) (3602879701896397/2251799813685248) (0) (7205759403792794) (by norm_num) (by norm_num)
    (by norm_num) (by norm_num [roundNearestEven]) (by norm_num)

lemma flScenC32 : fl (26796417782854451/2251799813685248) = 6699104445713613/562949953421312 :=
  fl_eq_of (26796417782854451/2251799813685248) (6699104445713613/562949953421312) (3) (6699104445713613) (by norm_num) (by norm_num)
    (by norm_num) (by norm_num [roundNearestEven]) (by norm_num)

lemma flScenC33 : fl (2233034815237871/1107134908395247) = 2270882862953767/1125899906842624 :=
  fl_eq_of (2233034815237871/1107134908395247) (2270882862953767/1125899906842624) (1) (4541765725907534) (by norm_num) (by norm_num)
    (by norm_num) (by norm_num [roundNearestEven]) (by norm_num)

lemma flScenC34 : fl (19083049268519/1125899906842624) = 19083049268519/1125899906842624 :=
  fl_eq_of (19083049268519/1125899906842624) (19083049268519/1125899906842624) (-6) (4885260612740864) (by norm_num) (by norm_num)
    (by norm_num) (by norm_num [roundNearestEven]) (by norm_num)

lemma flScenC35 : fl (30174117503382325/2251799813685248) = 7543529375845581/562949953421312 :=
  fl_eq_of (30174117503382325/2251799813685248) (7543529375845581/562949953421312) (3) (7543529375845581) (by norm_num) (by norm_num)
    (by norm_num) (by norm_num [roundNearestEven]) (by norm_num)

lemma flScenC36 : fl (56294995342131/562949953421312) = 56294995342131/562949953421312 :=
  fl_eq_of (56294995342131/562949953421312) (56294995342131/562949953421312) (-4) (7205759403792768) (by norm_num) (by norm_num)
    (by norm_num) (by norm_num [roundNearestEven]) (by norm_num)

/-- Full evaluation of the Scenario C edit: carriageway width `8.5`,
current geometry `{13.5, 6.2, 2, 0.55}`, edit `deck_overhang → 0.85`.
The sanitiser rounds `0.85` half-up to `0.9` and the committed state is
`{13.5, 5.9, 2, 0.9}`, whose composed width is `13.6`. -/
lemma resolve_scenarioC_eval :
    resolveGeometryChange (17/2) ⟨27/2, 31/5, 2, 11/20⟩ .deck_overhang (17/20) =
      { geometry := ⟨27/2, 59/10, 2, 9/10⟩,
        errors := emptyIssueMap,
        warnings := ⟨none, none, some msgWarnEquation⟩,
        raw := ⟨27/2, 31/5, 2, 9/10⟩,
        isValid := true } := by
  have hW : computeOverallWidth (17/2) = 27/2 := by
    norm_num [computeOverallWidth, roundToTwoDecimals, round_eq, MIN_SPACING, MIN_OVERHANG]
  have hraw : buildRawGeometry (17/2) ⟨27/2, 31/5, 2, 11/20⟩ .deck_overhang (17/20) =
      (⟨27/2, 31/5, 2, 9/10⟩ : Geometry) := by
    norm_num [buildRawGeometry, sanitizeNextValue, roundToOneDecimal, round_eq, hW,
      deck_overhang_ne_girder_count]
  have hcount : aaCountClamped (17/2) ⟨27/2, 31/5, 2, 9/10⟩ = 2 := by
    norm_num [aaCountClamped, hW, computeMaxGirders, round_eq, MIN_GIRDER_COUNT,
      MIN_OVERHANG, MIN_SPACING]
  have hspace : aaSpacingInput ⟨27/2, 31/5, 2, 9/10⟩ = 31/5 := by
    norm_num [aaSpacingInput, MIN_SPACING]
  have hoh : aaOverhangClamped (17/2) ⟨27/2, 31/5, 2, 9/10⟩ = 9/10 := by
    norm_num [aaOverhangClamped, clamp, computeMaxOverhang, hW, hcount,
      MIN_OVERHANG, MIN_SPACING]
  have hbr : aaBranch (17/2) ⟨27/2, 31/5, 2, 9/10⟩ (some .deck_overhang) =
      (2, 117/20, 9/10) := by
    norm_num [aaBranch, hW, hcount, hspace, hoh, usableWidth, clamp,
      computeMaxOverhang, MIN_OVERHANG, MIN_SPACING]
  have hfs : aaFinalSpacing (17/2) ⟨27/2, 31/5, 2, 9/10⟩ (some .deck_overhang) = 59/10 := by
    norm_num [aaFinalSpacing, hW, hbr, usableWidth, clamp, computeMaxOverhang,
      roundToOneDecimal, round_eq, MIN_OVERHANG, MIN_SPACING]
  have hfo : aaFinalOverhang (17/2) ⟨27/2, 31/5, 2, 9/10⟩ (some .deck_overhang) = 9/10 := by
    norm_num [aaFinalOverhang, hW, hbr, hfs, clamp, computeMaxOverhang,
      roundToOneDecimal, round_eq, MIN_OVERHANG, MIN_SPACING]
  have hadj : autoAdjustGeometry (17/2) ⟨27/2, 31/5, 2, 9/10⟩ (some .deck_overhang) =
      (⟨27/2, 59/10, 2, 9/10⟩ : Geometry) := by
    norm_num [autoAdjustGeometry, hbr, hfs, hfo, hW, roundToTwoDecimals, round_eq]
  have hdraw : detectGeometryIssues (17/2) ⟨27/2, 31/5, 2, 9/10⟩ =
      ⟨⟨none, none, none⟩, ⟨none, none, some msgWarnEquation⟩, 27/2⟩ := by
    norm_num [detectGeometryIssues, hW, MIN_GIRDER_COUNT, abs]
  have hdadj : detectGeometryIssues (17/2) ⟨27/2, 59/10, 2, 9/10⟩ =
      ⟨⟨none, none, none⟩, ⟨none, none, none⟩, 27/2⟩ := by
    norm_num [detectGeometryIssues, hW, MIN_GIRDER_COUNT, abs]
  rw [resolve_spec, hraw, hadj, hdraw, hdadj]
  norm_num [hasAnyIssue, emptyIssueMap, mergeIssueMaps, spreadOverride]

/-- The binary64 orchestrator's result, written out as its single branch. -/
lemma resolveFP_spec (carriagewayWidth : ℚ) (current : Geometry)
    (field : GeometryField) (value : ℚ) :
    resolveGeometryChangeFP carriagewayWidth current field value =
      if hasAnyIssue (detectGeometryIssuesFP carriagewayWidth
          (autoAdjustGeometryFP carriagewayWidth
            (buildRawGeometryFP carriagewayWidth current field value) (some field))).errors then
        { geometry := current,
          errors := (detectGeometryIssuesFP carriagewayWidth
            (autoAdjustGeometryFP carriagewayWidth
              (buildRawGeometryFP carriagewayWidth current field value) (some field))).errors,
          warnings := mergeIssueMaps
            (detectGeometryIssuesFP carriagewayWidth
              (buildRawGeometryFP carriagewayWidth current field value)).warnings
            (detectGeometryIssuesFP carriagewayWidth
              (autoAdjustGeometryFP carriagewayWidth
                (buildRawGeometryFP carriagewayWidth current field value) (some field))).warnings,
          raw := buildRawGeometryFP carriagewayWidth current field value,
          isValid := false }
      else
        { geometry := autoAdjustGeometryFP carriagewayWidth
            (buildRawGeometryFP carriagewayWidth current field value) (some field),
          errors := emptyIssueMap,
          warnings := mergeIssueMaps
            (detectGeometryIssuesFP carriagewayWidth
              (buildRawGeometryFP carriagewayWidth current field value)).warnings
            (detectGeometryIssuesFP carriagewayWidth
              (autoAdjustGeometryFP carriagewayWidth
                (buildRawGeometryFP carriagewayWidth current field value) (some field))).warnings,
          raw := buildRawGeometryFP carriagewayWidth current field value,
          isValid := true } := rfl

/-!
Staged binary64 evaluation of the Scenario C edit, exactly as the
double-precision source computes it: the sanitiser turns `0.85` into the
double nearest `0.9`, the solver commits spacing `fl 5.9` and — because
`13.5 - 2*fl 5.9` evaluates to `1.6999999999999993`, whose half
`0.8499999999999996` rounds to one decimal as `0.8` — overhang `fl 0.8`.
Each stage of the pipeline is evaluated in its own lemma.
-/

lemma flevC_W : computeOverallWidthFP (17/2) = 27/2 := by
  norm_num [computeOverallWidthFP, roundToTwoDecimalsFP, round_eq,
    MIN_SPACING, MIN_OVERHANG, flScenC06, flScenC07, flScenC08, flScenC09]

lemma flevC_raw : buildRawGeometryFP (17/2) ⟨27/2, fl (31/5), 2, fl (11/20)⟩
    .deck_overhang (fl (17/20)) =
    (⟨27/2, 6980579422424269/1125899906842624, 2,
      8106479329266893/9007199254740992⟩ : Geometry) := by
  norm_num [buildRawGeometryFP, sanitizeNextValueFP, roundToOneDecimalFP,
    deck_overhang_ne_girder_count, round_eq, flevC_W,
    flScenC01, flScenC03, flScenC04, flScenC05]

lemma flevC_abs1 : |(508470925670863/4503599627370496 : ℚ)| =
    508470925670863/4503599627370496 :=
  abs_of_nonneg (by norm_num)

lemma flevC_abs2 : |(394064967394919/562949953421312 : ℚ)| =
    394064967394919/562949953421312 :=
  abs_of_nonneg (by norm_num)

lemma flevC_abs3 : |(19083049268519/1125899906842624 : ℚ)| =
    19083049268519/1125899906842624 :=
  abs_of_nonneg (by norm_num)

lemma flevC_abs4 : |(56294995342131/562949953421312 : ℚ)| =
    56294995342131/562949953421312 :=
  abs_of_nonneg (by norm_num)

lemma flevC_draw : detectGeometryIssuesFP (17/2)
    ⟨27/2, 6980579422424269/1125899906842624, 2,
      8106479329266893/9007199254740992⟩ =
    ⟨⟨none, none, none⟩, ⟨none, none, some msgWarnEquation⟩, 27/2⟩ := by
  norm_num [detectGeometryIssuesFP, flevC_W, MIN_GIRDER_COUNT, fl_neg,
    flevC_abs1, flevC_abs2,
    flScenC10, flScenC11, flScenC12, flScenC13, flScenC14, flScenC15, flScenC16]

lemma flevC_count : aaCountClampedFP (17/2)
    ⟨27/2, 6980579422424269/1125899906842624, 2,
      8106479329266893/9007199254740992⟩ = 2 := by
  norm_num [aaCountClampedFP, computeMaxGirdersFP, flevC_W, round_eq,
    MIN_GIRDER_COUNT, MIN_OVERHANG, MIN_SPACING,
    flScenC06, flScenC17, flScenC18]

lemma flevC_maxO : computeMaxOverhangFP (27/2) 2 = 25/4 := by
  norm_num [computeMaxOverhangFP, MIN_OVERHANG, MIN_SPACING,
    flScenC06, flScenC17, flScenC19]

lemma flevC_space : aaSpacingInputFP
    ⟨27/2, 6980579422424269/1125899906842624, 2,
      8106479329266893/9007199254740992⟩ =
    6980579422424269/1125899906842624 := by
  norm_num [aaSpacingInputFP, MIN_SPACING]

lemma flevC_oh : aaOverhangClampedFP (17/2)
    ⟨27/2, 6980579422424269/1125899906842624, 2,
      8106479329266893/9007199254740992⟩ =
    8106479329266893/9007199254740992 := by
  norm_num [aaOverhangClampedFP, clamp, flevC_W, flevC_count, flevC_maxO,
    MIN_OVERHANG]

lemma flevC_br : aaBranchFP (17/2)
    ⟨27/2, 6980579422424269/1125899906842624, 2,
      8106479329266893/9007199254740992⟩ (some .deck_overhang) =
    (2, 3293257227514675/562949953421312, 8106479329266893/9007199254740992) := by
  norm_num [aaBranchFP, usableWidthFP, clamp, flevC_W, flevC_count,
    flevC_space, flevC_oh, flevC_maxO,
    MIN_SPACING, MIN_OVERHANG, MIN_GIRDER_COUNT,
    flScenC06, flScenC10, flScenC11, flScenC20]

lemma flevC_fs : aaFinalSpacingFP (17/2)
    ⟨27/2, 6980579422424269/1125899906842624, 2,
      8106479329266893/9007199254740992⟩ (some .deck_overhang) =
    3321404725185741/562949953421312 := by
  norm_num [aaFinalSpacingFP, roundToOneDecimalFP, usableWidthFP, clamp,
    flevC_W, flevC_br, flevC_maxO, round_eq, MIN_SPACING, MIN_OVERHANG,
    flScenC06, flScenC20, flScenC21, flScenC22, flScenC23, flScenC24, flScenC25]

lemma flevC_fo : aaFinalOverhangFP (17/2)
    ⟨27/2, 6980579422424269/1125899906842624, 2,
      8106479329266893/9007199254740992⟩ (some .deck_overhang) =
    3602879701896397/4503599627370496 := by
  norm_num [aaFinalOverhangFP, roundToOneDecimalFP, clamp, flevC_W, flevC_br,
    flevC_fs, flevC_maxO, round_eq, MIN_OVERHANG,
    flScenC26, flScenC27, flScenC28, flScenC29, flScenC30]

lemma flevC_adj : autoAdjustGeometryFP (17/2)
    ⟨27/2, 6980579422424269/1125899906842624, 2,
      8106479329266893/9007199254740992⟩ (some .deck_overhang) =
    (⟨27/2, 3321404725185741/562949953421312, 2,
      3602879701896397/4503599627370496⟩ : Geometry) := by
  norm_num [autoAdjustGeometryFP, roundToTwoDecimalsFP, flevC_W, flevC_br,
    flevC_fs, flevC_fo, round_eq, flScenC08, flScenC09]

lemma flevC_dadj : detectGeometryIssuesFP (17/2)
    ⟨27/2, 3321404725185741/562949953421312, 2,
      3602879701896397/4503599627370496⟩ =
    ⟨⟨none, none, none⟩, ⟨none, none, none⟩, 27/2⟩ := by
  norm_num [detectGeometryIssuesFP, flevC_W, MIN_GIRDER_COUNT, fl_neg,
    flevC_abs3, flevC_abs4,
    flScenC26, flScenC31, flScenC32, flScenC33, flScenC34, flScenC35, flScenC36]

/-- Full binary64 evaluation of the Scenario C edit, assembled from the
stage evaluations above. -/
lemma resolveFP_scenarioC_eval :
    resolveGeometryChangeFP (17/2) ⟨27/2, fl (31/5), 2, fl (11/20)⟩
        .deck_overhang (fl (17/20)) =
      { geometry := ⟨27/2, 3321404725185741/562949953421312, 2,
          3602879701896397/4503599627370496⟩,
        errors := emptyIssueMap,
        warnings := ⟨none, none, some msgWarnEquation⟩,
        raw := ⟨27/2, 6980579422424269/1125899906842624, 2,
          8106479329266893/9007199254740992⟩,
        isValid := true } := by
  rw [resolveFP_spec, flevC_raw, flevC_adj, flevC_draw, flevC_dadj]
  norm_num [hasAnyIssue, emptyIssueMap, mergeIssueMaps, spreadOverride]

/-! ### Claim theorems -/

/-- C2: for every call to `resolveGeometryChange`, whenever the post-solve
detector pass on the auto-adjusted geometry produces a non-empty errors map
the result carries `isValid = false` and its `geometry` field is exactly the
`currentGeometry` passed in; otherwise the adjusted geometry is committed.
Stated as the full branch behaviour (hypothesis-free), which subsumes the
claim's conditional. -/
theorem rejection_preserves_current_geometry (carriagewayWidth : ℚ)
    (current : Geometry) (field : GeometryField) (value : ℚ) :
    (resolveGeometryChange carriagewayWidth current field value).geometry =
      (if hasAnyIssue (detectGeometryIssues carriagewayWidth
          (autoAdjustGeometry carriagewayWidth
            (buildRawGeometry carriagewayWidth current field value) (some field))).errors
       then current
       else autoAdjustGeometry carriagewayWidth
         (buildRawGeometry carriagewayWidth current field value) (some field)) ∧
    (resolveGeometryChange carriagewayWidth current field value).isValid =
      !(hasAnyIssue (detectGeometryIssues carriagewayWidth
          (autoAdjustGeometry carriagewayWidth
            (buildRawGeometry carriagewayWidth current field value) (some field))).errors) ∧
    (resolveGeometryChange carriagewayWidth current field value).errors =
      (if hasAnyIssue (detectGeometryIssues carriagewayWidth
          (autoAdjustGeometry carriagewayWidth
            (buildRawGeometry carriagewayWidth current field value) (some field))).errors
       then (detectGeometryIssues carriagewayWidth
          (autoAdjustGeometry carriagewayWidth
            (buildRawGeometry carriagewayWidth current field value) (some field))).errors
       else emptyIssueMap) := by
  rw [resolve_spec]
  cases hb : hasAnyIssue (detectGeometryIssues carriagewayWidth
      (autoAdjustGeometry carriagewayWidth
        (buildRawGeometry carriagewayWidth current field value) (some field))).errors <;>
    simp [hb]

/-- C4: for every call to `resolveGeometryChange`, the returned `isValid`
flag is `true` if and only if the returned errors map is empty. -/
theorem isValid_iff_errors_empty (carriagewayWidth : ℚ) (current : Geometry)
    (field : GeometryField) (value : ℚ) :
    (resolveGeometryChange carriagewayWidth current field value).isValid = true ↔
      (resolveGeometryChange carriagewayWidth current field value).errors = emptyIssueMap := by
  rw [resolve_spec]
  cases hb : hasAnyIssue (detectGeometryIssues carriagewayWidth
      (autoAdjustGeometry carriagewayWidth
        (buildRawGeometry carriagewayWidth current field value) (some field))).errors with
  | false => simp [hb]
  | true =>
    simp only [hb, if_true]
    refine iff_of_false (by simp) fun he => ?_
    have hf := (hasAnyIssue_eq_false_iff _).mpr he
    rw [hf] at hb
    exact Bool.false_ne_true hb

/-- Witness for C4 at the Scenario C input: the accepted call indeed has
`isValid = true` together with an empty errors map. -/
theorem isValid_iff_errors_empty_witness :
    (resolveGeometryChange (17/2) ⟨27/2, 31/5, 2, 11/20⟩
        .deck_overhang (17/20)).isValid = true ↔
      (resolveGeometryChange (17/2) ⟨27/2, 31/5, 2, 11/20⟩
        .deck_overhang (17/20)).errors = emptyIssueMap :=
  isValid_iff_errors_empty (17/2) ⟨27/2, 31/5, 2, 11/20⟩ .deck_overhang (17/20)

/-- C3: `autoAdjustGeometry` always returns a feasible tuple clamped to the
bounds: the girder count lies between `MIN_GIRDER_COUNT` and
`floor((overall_width − 2×MIN_OVERHANG)/MIN_SPACING)`, the overhang is at
least `MIN_OVERHANG = 0.5` and the spacing at least `MIN_SPACING = 0.5`,
for every carriageway width, geometry and changed field. -/
theorem autoAdjust_feasible (carriagewayWidth : ℚ) (geometry : Geometry)
    (changedField : Option GeometryField) :
    MIN_GIRDER_COUNT ≤
        (autoAdjustGeometry carriagewayWidth geometry changedField).girder_count ∧
    (autoAdjustGeometry carriagewayWidth geometry changedField).girder_count ≤
      specMaxGirders
        ((autoAdjustGeometry carriagewayWidth geometry changedField).overall_width) ∧
    MIN_OVERHANG ≤
      (autoAdjustGeometry carriagewayWidth geometry changedField).deck_overhang ∧
    MIN_SPACING ≤
      (autoAdjustGeometry carriagewayWidth geometry changedField).girder_spacing := by
  refine ⟨aaBranch_count_lower _ _ _, ?_, ?_, ?_⟩
  · rw [autoAdjust_overall_width,
      ← computeMaxGirders_eq_spec (two_le_computeOverallWidth carriagewayWidth)]
    exact aaBranch_count_upper _ _ _
  · show MIN_OVERHANG ≤ aaFinalOverhang carriagewayWidth geometry changedField
    simp only [aaFinalOverhang]
    rw [show MIN_OVERHANG = 1/2 from rfl]
    exact half_le_roundToOneDecimal (clamp_le_left _ _ _)
  · show MIN_SPACING ≤ aaFinalSpacing carriagewayWidth geometry changedField
    simp only [aaFinalSpacing]
    rw [show MIN_SPACING = 1/2 from rfl]
    exact half_le_roundToOneDecimal (le_max_left _ _)

/-- C8: `detectGeometryIssues` and `autoAdjustGeometry` never read the
`overall_width` field of their geometry argument: two inputs differing only
in that field produce identical results (the overall width is always
recomputed from the carriageway width). -/
theorem detect_autoAdjust_ignore_overall_width (carriagewayWidth : ℚ)
    (spacing count overhang w₁ w₂ : ℚ) (changedField : Option GeometryField) :
    detectGeometryIssues carriagewayWidth ⟨w₁, spacing, count, overhang⟩ =
      detectGeometryIssues carriagewayWidth ⟨w₂, spacing, count, overhang⟩ ∧
    autoAdjustGeometry carriagewayWidth ⟨w₁, spacing, count, overhang⟩ changedField =
      autoAdjustGeometry carriagewayWidth ⟨w₂, spacing, count, overhang⟩ changedField :=
  ⟨rfl, rfl⟩

/-- C9: whenever the detector's errors map contains the key `deck_overhang`,
the surviving message is `'Deck overhang consumes the deck width.'`; the
earlier `'must leave room'` message is always overwritten, because its
trigger `2×deck_overhang ≥ overall_width` holds exactly when
`overall_width − 2×deck_overhang ≤ 0`. -/
theorem overhang_error_message_always_consumes (carriagewayWidth : ℚ)
    (geometry : Geometry) :
    (detectGeometryIssues carriagewayWidth geometry).errors.deck_overhang = none ∨
    (detectGeometryIssues carriagewayWidth geometry).errors.deck_overhang =
      some msgOverhangConsumes := by
  rw [detect_err_overhang]
  split_ifs with h1 h2
  · exact Or.inr rfl
  · exact absurd (by linarith :
      computeOverallWidth carriagewayWidth - 2 * geometry.deck_overhang ≤ 0) h1
  · exact Or.inl rfl

/-- C10: the detector branch emitting
`'Spacing must allow for at least one girder bay.'` is unreachable: the
`girder_spacing` error slot only ever holds the positivity or the
usable-width message (or is absent), since the guarded quotient
`effectiveWidth / girder_spacing` is strictly positive whenever the branch
is evaluated. -/
theorem spacing_bay_error_unreachable (carriagewayWidth : ℚ)
    (geometry : Geometry) :
    (detectGeometryIssues carriagewayWidth geometry).errors.girder_spacing = none ∨
    (detectGeometryIssues carriagewayWidth geometry).errors.girder_spacing =
      some msgSpacingPositive ∨
    (detectGeometryIssues carriagewayWidth geometry).errors.girder_spacing =
      some msgSpacingUsable := by
  rw [detect_err_spacing]
  have hc1 : ¬ (¬ computeOverallWidth carriagewayWidth - 2 * geometry.deck_overhang ≤ 0 ∧
      0 < geometry.girder_spacing ∧
      (computeOverallWidth carriagewayWidth - 2 * geometry.deck_overhang) /
        geometry.girder_spacing ≤ 0) := by
    rintro ⟨hne, hpos, hdiv⟩
    have hq : 0 < (computeOverallWidth carriagewayWidth -
        2 * geometry.deck_overhang) / geometry.girder_spacing :=
      div_pos (not_le.mp hne) hpos
    linarith
  rw [if_neg hc1]
  by_cases hs : geometry.girder_spacing ≤ 0
  · rw [if_pos hs]
    rw [if_neg (by simp :
      ¬ (geometry.girder_spacing ≥
          computeOverallWidth carriagewayWidth - 2 * geometry.deck_overhang ∧
        (some msgSpacingPositive : Option String) = none))]
    exact Or.inr (Or.inl rfl)
  · rw [if_neg hs]
    by_cases hge : geometry.girder_spacing ≥
        computeOverallWidth carriagewayWidth - 2 * geometry.deck_overhang
    · rw [if_pos ⟨hge, rfl⟩]
      exact Or.inr (Or.inr rfl)
    · rw [if_neg fun hcon => hge hcon.1]
      exact Or.inl rfl

/-- C5 (amended): the spacing-versus-usable-width rule is checked before
the effective-width rule and is not gated by it: whenever
`effective = overall_width − 2×deck_overhang ≤ 0` the detector reports the
`deck_overhang` error `'consumes the deck width'` and, as long as the
spacing is positive (so no earlier spacing error exists), it also reports
the `girder_spacing` error `'must be less than the usable deck width'`. -/
theorem effective_nonpos_reports_both_errors (carriagewayWidth : ℚ)
    (geometry : Geometry)
    (heff : computeOverallWidth carriagewayWidth - 2 * geometry.deck_overhang ≤ 0)
    (hs : 0 < geometry.girder_spacing) :
    (detectGeometryIssues carriagewayWidth geometry).errors.deck_overhang =
      some msgOverhangConsumes ∧
    (detectGeometryIssues carriagewayWidth geometry).errors.girder_spacing =
      some msgSpacingUsable := by
  constructor
  · rw [detect_err_overhang, if_pos heff]
  · rw [detect_err_spacing]
    rw [if_neg fun hcon => hcon.1 heff]
    rw [if_neg (not_le.mpr hs)]
    exact if_pos ⟨heff.trans hs.le, rfl⟩

/-- Evaluation of `deriveGeometrySeed` at the initial carriageway width
`8.5`: the seed overhang is `(13.5 − 10)/2 = 1.75` rounded by `toFixed(1)`
to `1.8`. -/
lemma deriveGeometrySeed_eval :
    deriveGeometrySeed (17/2) = ⟨27/2, 5/2, 4, 9/5⟩ := by
  norm_num [deriveGeometrySeed, toFixedTwo, toFixedOne, round_eq]

/-- C1 (counterexample): the Scenario C edit, evaluated under the binary64
arithmetic the source actually runs (current geometry holding the doubles
nearest `6.2` and `0.55`, edited value the double nearest `0.85`), is
accepted (`isValid = true`) yet its committed geometry violates the width
equation by `-225179981368523/2251799813685248 ≈ -0.0999999999999992`,
which exceeds the claimed `1e-6` tolerance. -/
theorem invariant_tolerance_counterexample :
    (resolveGeometryChangeFP (17/2) ⟨27/2, fl (31/5), 2, fl (11/20)⟩
        .deck_overhang (fl (17/20))).isValid = true ∧
    (resolveGeometryChangeFP (17/2) ⟨27/2, fl (31/5), 2, fl (11/20)⟩
          .deck_overhang (fl (17/20))).geometry.girder_count *
        (resolveGeometryChangeFP (17/2) ⟨27/2, fl (31/5), 2, fl (11/20)⟩
          .deck_overhang (fl (17/20))).geometry.girder_spacing +
      2 * (resolveGeometryChangeFP (17/2) ⟨27/2, fl (31/5), 2, fl (11/20)⟩
          .deck_overhang (fl (17/20))).geometry.deck_overhang -
      (resolveGeometryChangeFP (17/2) ⟨27/2, fl (31/5), 2, fl (11/20)⟩
          .deck_overhang (fl (17/20))).geometry.overall_width =
        -(225179981368523/2251799813685248) ∧
    (1/1000000 : ℚ) < 225179981368523/2251799813685248 := by
  rw [resolveFP_scenarioC_eval]
  exact ⟨rfl, by norm_num, by norm_num⟩

/-- C1 (amended): every accepted edit commits a geometry that satisfies the
width equation to within the detector's `0.5` drift tolerance, or else the
returned warnings map carries the `deck_overhang` rebalancing warning; the
claimed `1e-6` tolerance does not hold because the overhang absorbs the
spacing's one-decimal rounding residue only up to its own one-decimal
rounding and clamping. -/
theorem accepted_state_near_invariant_or_warned
    (carriagewayWidth : ℚ) (current : Geometry) (field : GeometryField) (value : ℚ)
    (hvalid : (resolveGeometryChange carriagewayWidth current field value).isValid = true) :
    |(resolveGeometryChange carriagewayWidth current field value).geometry.girder_count *
        (resolveGeometryChange carriagewayWidth current field value).geometry.girder_spacing +
      2 * (resolveGeometryChange carriagewayWidth current field value).geometry.deck_overhang -
      (resolveGeometryChange carriagewayWidth current field value).geometry.overall_width|
        < 1/2 ∨
    (resolveGeometryChange carriagewayWidth current field value).warnings.deck_overhang =
      some msgWarnEquation := by
  rw [resolve_spec] at hvalid ⊢
  cases hb : hasAnyIssue (detectGeometryIssues carriagewayWidth
      (autoAdjustGeometry carriagewayWidth
        (buildRawGeometry carriagewayWidth current field value) (some field))).errors with
  | true =>
    rw [if_pos hb] at hvalid
    exact absurd hvalid Bool.false_ne_true
  | false =>
    rw [if_neg Bool.false_ne_true]
    by_cases habs : |(autoAdjustGeometry carriagewayWidth
          (buildRawGeometry carriagewayWidth current field value) (some field)).girder_count *
        (autoAdjustGeometry carriagewayWidth
          (buildRawGeometry carriagewayWidth current field value) (some field)).girder_spacing +
      2 * (autoAdjustGeometry carriagewayWidth
          (buildRawGeometry carriagewayWidth current field value) (some field)).deck_overhang -
      (autoAdjustGeometry carriagewayWidth
          (buildRawGeometry carriagewayWidth current field value) (some field)).overall_width|
        < 1/2
    · exact Or.inl habs
    · refine Or.inr ?_
      have hwarn : (detectGeometryIssues carriagewayWidth
          (autoAdjustGeometry carriagewayWidth
            (buildRawGeometry carriagewayWidth current field value)
            (some field))).warnings.deck_overhang = some msgWarnEquation := by
        rw [detect_warn_overhang, if_pos]
        rw [autoAdjust_overall_width] at habs
        exact not_lt.mp habs
      show (mergeIssueMaps _ _).deck_overhang = _
      rw [mergeIssueMaps, hwarn, spreadOverride_some]

/-- Witness for the amended C1 theorem at the Scenario C input, where the
accepted state drifts by `0.1 < 0.5`. -/
theorem accepted_state_near_invariant_or_warned_witness :
    (resolveGeometryChange (17/2) ⟨27/2, 31/5, 2, 11/20⟩ .deck_overhang (17/20)).isValid
        = true ∧
    (|(resolveGeometryChange (17/2) ⟨27/2, 31/5, 2, 11/20⟩
          .deck_overhang (17/20)).geometry.girder_count *
        (resolveGeometryChange (17/2) ⟨27/2, 31/5, 2, 11/20⟩
          .deck_overhang (17/20)).geometry.girder_spacing +
      2 * (resolveGeometryChange (17/2) ⟨27/2, 31/5, 2, 11/20⟩
          .deck_overhang (17/20)).geometry.deck_overhang -
      (resolveGeometryChange (17/2) ⟨27/2, 31/5, 2, 11/20⟩
          .deck_overhang (17/20)).geometry.overall_width| < 1/2 ∨
    (resolveGeometryChange (17/2) ⟨27/2, 31/5, 2, 11/20⟩
        .deck_overhang (17/20)).warnings.deck_overhang = some msgWarnEquation) :=
  ⟨by rw [resolve_scenarioC_eval],
   accepted_state_near_invariant_or_warned (17/2) ⟨27/2, 31/5, 2, 11/20⟩
     .deck_overhang (17/20) (by rw [resolve_scenarioC_eval])⟩

/-- C5 (counterexample): at carriageway width `0` (overall width `5`) with
geometry `{5, 1, 2, 3}`, the effective width `5 − 6 = −1` is non-positive,
yet the detector still reports the `girder_spacing`
"usable deck width" error — that rule is not an else-branch of the
effective-width check. -/
theorem spacing_error_not_else_counterexample :
    (detectGeometryIssues 0 ⟨5, 1, 2, 3⟩).errors.girder_spacing =
        some msgSpacingUsable ∧
    computeOverallWidth 0 - 2 * (3 : ℚ) ≤ 0 := by
  have hW : computeOverallWidth 0 = 5 := by
    norm_num [computeOverallWidth, roundToTwoDecimals, round_eq, MIN_SPACING, MIN_OVERHANG]
  constructor
  · norm_num [detectGeometryIssues, hW, MIN_GIRDER_COUNT, abs]
  · rw [hW]; norm_num

/-- Witness for the amended C5 theorem at carriageway width `0`,
geometry `{5, 1, 2, 3}`. -/
theorem effective_nonpos_reports_both_errors_witness :
    computeOverallWidth 0 - 2 * ((⟨5, 1, 2, 3⟩ : Geometry)).deck_overhang ≤ 0 ∧
    (0 : ℚ) < ((⟨5, 1, 2, 3⟩ : Geometry)).girder_spacing ∧
    ((detectGeometryIssues 0 ⟨5, 1, 2, 3⟩).errors.deck_overhang =
        some msgOverhangConsumes ∧
      (detectGeometryIssues 0 ⟨5, 1, 2, 3⟩).errors.girder_spacing =
        some msgSpacingUsable) :=
  have h1 : computeOverallWidth 0 - 2 * ((⟨5, 1, 2, 3⟩ : Geometry)).deck_overhang ≤ 0 := by
    norm_num [computeOverallWidth, roundToTwoDecimals, round_eq, MIN_SPACING, MIN_OVERHANG]
  have h2 : (0 : ℚ) < ((⟨5, 1, 2, 3⟩ : Geometry)).girder_spacing := by norm_num
  ⟨h1, h2, effective_nonpos_reports_both_errors 0 ⟨5, 1, 2, 3⟩ h1 h2⟩

/-- C6 (counterexample): the form-load seed for carriageway width `8.5`
has deck overhang `1.8`, not `0.5` — indeed its overhang is strictly
greater than `0.5`. -/
theorem seed_overhang_counterexample :
    (deriveGeometrySeed (17/2)).deck_overhang = 9/5 ∧
    (1/2 : ℚ) < (deriveGeometrySeed (17/2)).deck_overhang := by
  rw [deriveGeometrySeed_eval]
  exact ⟨rfl, by norm_num⟩

/-- C6 (amended): the form-load seed for carriageway width `8.5` is
`overall_width = 13.5`, `girder_count = 4`, `girder_spacing = 2.5`,
`deck_overhang = 1.8`: the documented formula computes `(13.5 − 10)/2 = 1.75`
and `toFixed(1)` rounds it half-up to `1.8` (it is not rounded down). -/
theorem seed_for_initial_width :
    deriveGeometrySeed (17/2) =
      { overall_width := 27/2, girder_spacing := 5/2,
        girder_count := 4, deck_overhang := 9/5 } :=
  deriveGeometrySeed_eval

/-- C7 (counterexample): the Scenario C edit (`deck_overhang → 0.85`),
evaluated under the binary64 arithmetic the source actually runs, is
accepted but commits the overhang `fl 0.8 ≈ 0.8000000000000000444` — a
value strictly below `0.85`, although `0.85` itself lies inside the
feasible `[MIN_OVERHANG, maxOverhang]` interval — and the committed state
misses the width equation by about `-0.1` rather than satisfying it
exactly. -/
theorem scenarioC_counterexample :
    (resolveGeometryChangeFP (17/2) ⟨27/2, fl (31/5), 2, fl (11/20)⟩
        .deck_overhang (fl (17/20))).isValid = true ∧
    (resolveGeometryChangeFP (17/2) ⟨27/2, fl (31/5), 2, fl (11/20)⟩
        .deck_overhang (fl (17/20))).geometry.deck_overhang = fl (4/5) ∧
    (resolveGeometryChangeFP (17/2) ⟨27/2, fl (31/5), 2, fl (11/20)⟩
        .deck_overhang (fl (17/20))).geometry.deck_overhang < 17/20 ∧
    MIN_OVERHANG ≤ (17/20 : ℚ) ∧
    (17/20 : ℚ) ≤ computeMaxOverhangFP (computeOverallWidthFP (17/2)) 2 ∧
    (resolveGeometryChangeFP (17/2) ⟨27/2, fl (31/5), 2, fl (11/20)⟩
          .deck_overhang (fl (17/20))).geometry.girder_count *
        (resolveGeometryChangeFP (17/2) ⟨27/2, fl (31/5), 2, fl (11/20)⟩
          .deck_overhang (fl (17/20))).geometry.girder_spacing +
      2 * (resolveGeometryChangeFP (17/2) ⟨27/2, fl (31/5), 2, fl (11/20)⟩
          .deck_overhang (fl (17/20))).geometry.deck_overhang -
      (resolveGeometryChangeFP (17/2) ⟨27/2, fl (31/5), 2, fl (11/20)⟩
          .deck_overhang (fl (17/20))).geometry.overall_width < 0 := by
  have hW : computeOverallWidthFP (17/2) = 27/2 := by
    norm_num [computeOverallWidthFP, roundToTwoDecimalsFP, round_eq,
      MIN_SPACING, MIN_OVERHANG, flScenC06, flScenC07, flScenC08, flScenC09]
  have hmaxO : computeMaxOverhangFP (27/2) 2 = 25/4 := by
    norm_num [computeMaxOverhangFP, MIN_OVERHANG, MIN_SPACING,
      flScenC06, flScenC17, flScenC19]
  rw [resolveFP_scenarioC_eval, hW, hmaxO]
  refine ⟨rfl, by norm_num [flScenC30], by norm_num, by norm_num [MIN_OVERHANG],
    by norm_num, by norm_num⟩

/-- C7 (amended): Scenario C under the source's binary64 arithmetic
returns `isValid = true`; the raw `0.85` is first rounded half-up to one
decimal by the sanitiser, giving the double nearest `0.9`, and the solver
then commits `girder_spacing = fl 5.9` (decreased from `6.2`) and
`deck_overhang = fl 0.8` — because `13.5 - 2*fl 5.9` evaluates to
`1.6999999999999993`, whose half rounds to one decimal as `0.8` — so the
committed composed width is about `13.4`, missing the width equation by
about `-0.1` (below the `0.5` warning threshold; the returned rebalancing
warning stems from the raw pass). -/
theorem scenarioC_resolved :
    resolveGeometryChangeFP (17/2) ⟨27/2, fl (31/5), 2, fl (11/20)⟩
        .deck_overhang (fl (17/20)) =
      { geometry := ⟨27/2, fl (59/10), 2, fl (4/5)⟩,
        errors := emptyIssueMap,
        warnings := ⟨none, none, some msgWarnEquation⟩,
        raw := ⟨27/2, fl (31/5), 2, fl (9/10)⟩,
        isValid := true } := by
  rw [resolveFP_scenarioC_eval]
  norm_num [flScenC01, flScenC05, flScenC25, flScenC30]

end OsdagGeometry
